import Mathlib

/-!
Verification development for `http-minimist` (`src/server/src/main.rs`):
a minimal HTTP request dispatcher. A `BTreeMap` keyed on
`(HttpMethod, RequestPath)` maps route keys to request handlers;
`make_req_dispatcher` looks the incoming request's key up in the table and
invokes either the matched handler or the default handler.

The `BTreeMap` is modelled as an association list with duplicate-free keys:
`btInsert` models `BTreeMap::insert` (overwriting the value at an existing
key), `btGet` models lookup, and `buildRoutes` models the `routes!` macro
(which expands to `maplit::btreemap!`, i.e. sequential inserts into an empty
map). Hyper's `Method` is represented by its `as_str()` string; request
bodies are never inspected by any of the functions modelled here, so a
request is its method string and URI path string. A hyper `Response` is
modelled by its status, the two typed headers the handlers touch
(`Content-Type`, `Content-Length`), and its body string; `Response::new`
yields status 200 and no explicit headers.
-/

namespace HttpMinimist

/-- Model of `struct RequestPath(String)` from `main.rs`. -/
structure RequestPath where
  path : String
deriving DecidableEq

/-- Model of `struct HttpMethod(Method)`; hyper's `Method` compares equal
exactly when the method strings (`as_str()`) are equal, so it is represented
by that string. -/
structure HttpMethod where
  method : String
deriving DecidableEq

/-- Rust's `str::cmp` (lexicographic order); modelled via the linear order
on `String`, which is lexicographic on characters and therefore agrees with
byte-lexicographic order on UTF-8 strings. -/
def strCmp (a b : String) : Ordering :=
  if a < b then Ordering.lt else if a = b then Ordering.eq else Ordering.gt

/-- Model of `impl Ord for HttpMethod`:
`self.0.as_str().cmp(other.0.as_str())`. -/
def HttpMethod.cmp (a b : HttpMethod) : Ordering :=
  strCmp a.method b.method

/-- Model of `impl PartialOrd for HttpMethod`: `Some(self.cmp(other))`. -/
def HttpMethod.partialCmp (a b : HttpMethod) : Option Ordering :=
  some (a.cmp b)

/-- A route key, as used by the dispatch table: `(HttpMethod, RequestPath)`. -/
abbrev RouteKey := HttpMethod × RequestPath

/-- The part of a hyper `Request` the dispatcher and handlers read:
`req.method()` (as its string) and `req.uri().path()`. -/
structure Request where
  method : String
  path : String
deriving DecidableEq

/-- The part of a hyper `Response` the program constructs: status code,
the `Content-Type` and `Content-Length` typed headers, and the body. -/
structure Response where
  status : Nat
  contentType : Option String
  contentLength : Option Nat
  body : String
deriving DecidableEq

/-- `Response::new(body)`: status 200, no explicit headers. -/
def Response.new (body : String) : Response :=
  { status := 200, contentType := none, contentLength := none, body := body }

/-- A `RequestHandler`: the handlers stored in the table and the default
handler all map a request to a response (their futures are immediate). -/
abbrev RequestHandler := Request → Response

/-- Lookup in the association-list model of `BTreeMap`
(`dispatch_table.get_mut(&key)`, value part). -/
def btGet {K V : Type} [DecidableEq K] : List (K × V) → K → Option V
  | [], _ => none
  | (k', v') :: rest, k => if k = k' then some v' else btGet rest k

/-- `BTreeMap::insert`: overwrite the value at an existing key, otherwise
append the new binding. -/
def btInsert {K V : Type} [DecidableEq K] : List (K × V) → K → V → List (K × V)
  | [], k, v => [(k, v)]
  | (k', v') :: rest, k, v =>
      if k = k' then (k, v) :: rest else (k', v') :: btInsert rest k v

/-- Model of the `routes!` macro / `maplit::btreemap!`: insert the listed
(key, value) pairs in order into an empty map. -/
def buildRoutes {K V : Type} [DecidableEq K] (rs : List (K × V)) : List (K × V) :=
  rs.foldl (fun m kv => btInsert m kv.1 kv.2) []

/-- The route key the dispatcher derives from a request:
`(HttpMethod(req.method().clone()), RequestPath(req.uri().path().to_string()))`. -/
def requestKey (req : Request) : RouteKey :=
  (HttpMethod.mk req.method, RequestPath.mk req.path)

/-- The handler the dispatcher selects:
`dispatch_table.get_mut(&key).unwrap_or(&mut default_handler)`. -/
def dispatchChoice (dispatch_table : List (RouteKey × RequestHandler))
    (default_handler : RequestHandler) (key : RouteKey) : RequestHandler :=
  (btGet dispatch_table key).getD default_handler

/-- Model of `make_req_dispatcher`: derive the request's route key, look it
up in the table falling back to the default handler, and invoke the selected
handler on the request. -/
def make_req_dispatcher (dispatch_table : List (RouteKey × RequestHandler))
    (default_handler : RequestHandler) : Request → Response :=
  fun req =>
    let key := requestKey req
    let handler := (btGet dispatch_table key).getD default_handler
    handler req

/-- The dispatcher's state as captured by the closure returned by
`make_req_dispatcher`: the dispatch table and the default handler. -/
structure DispatcherState where
  dispatch_table : List (RouteKey × RequestHandler)
  default_handler : RequestHandler

/-- One dispatch invocation as a state transition: the closure body uses
`get_mut` on the captured table (which never inserts or removes entries) and
invokes the selected handler, so the state after the call is returned
explicitly alongside the response. -/
def dispatchStep (s : DispatcherState) (req : Request) : Response × DispatcherState :=
  let key := requestKey req
  match btGet s.dispatch_table key with
  | some h => (h req, s)
  | none => (s.default_handler req, s)

/-- Dispatch a sequence of requests, threading the dispatcher state. -/
def runRequests (s : DispatcherState) : List Request → List Response × DispatcherState
  | [] => ([], s)
  | req :: reqs =>
      let (resp, s') := dispatchStep s req
      let (resps, s'') := runRequests s' reqs
      (resp :: resps, s'')

/-- `on_get_networks` from `main`: a fixed JSON greeting with explicit
`Content-Length` and `Content-Type: application/json` headers. -/
def on_get_networks : RequestHandler := fun _ =>
  let response := "\x7b \"greeting\": \"Hola amigo!\" \x7d"
  let repsonse_len := response.length
  let r := Response.new response
  let r := { r with contentLength := some repsonse_len }
  { r with contentType := some "application/json" }

/-- `on_create_network` from `main`: a fixed JSON object (raw string literal,
whitespace included) with explicit `Content-Length` and
`Content-Type: application/json` headers. -/
def on_create_network : RequestHandler := fun _ =>
  let response :=
    "\x7b\n            \"Id\": \"12345\",\n            \"Warnings\": \"\"\n        \x7d"
  let response_len := response.length
  let r := Response.new response
  let r := { r with contentLength := some response_len }
  { r with contentType := some "application/json" }

/-- The default handler from `main`: `Response::new("boo".into())`. -/
def default_handler : RequestHandler := fun _ => Response.new "boo"

/-- The route key registered for `GET /networks`. -/
def getNetworksKey : RouteKey := (HttpMethod.mk "GET", RequestPath.mk "/networks")

/-- The route key registered for `POST /networks`. -/
def postNetworksKey : RouteKey := (HttpMethod.mk "POST", RequestPath.mk "/networks")

/-- The dispatch table built in `main`:
`routes!(GET "/networks" => on_get_networks, POST "/networks" => on_create_network)`. -/
def dispatch_table : List (RouteKey × RequestHandler) :=
  buildRoutes [(getNetworksKey, on_get_networks), (postNetworksKey, on_create_network)]

/-- The dispatcher built in `main`. -/
def mainDispatcher : Request → Response :=
  make_req_dispatcher dispatch_table default_handler

/-- A handler distinct from the registered ones, used to instantiate the
generic dispatch theorems at concrete inputs. -/
def probeHandlerA : RequestHandler := fun _ => Response.new "A"

/-- Lookup after `btInsert`: the inserted key maps to the new value, every
other key is unaffected. -/
theorem btGet_btInsert {K V : Type} [DecidableEq K] (m : List (K × V)) (k₀ k : K) (v₀ : V) :
    btGet (btInsert m k₀ v₀) k = if k = k₀ then some v₀ else btGet m k := by
  induction m with
  | nil =>
    by_cases h : k = k₀ <;> simp [btInsert, btGet, h]
  | cons kv rest ih =>
    obtain ⟨k', v'⟩ := kv
    by_cases h₀ : k₀ = k' <;> by_cases h : k = k₀ <;>
      simp_all [btInsert, btGet]

/-- Lookup in a fold of inserts: the last listed binding for a key wins. -/
theorem btGet_foldl_btInsert {K V : Type} [DecidableEq K] (rs : List (K × V))
    (m : List (K × V)) (k : K) :
    btGet (rs.foldl (fun m kv => btInsert m kv.1 kv.2) m) k
      = rs.foldl (fun acc kv => if k = kv.1 then some kv.2 else acc) (btGet m k) := by
  induction rs generalizing m with
  | nil => rfl
  | cons kv rs ih =>
    simp only [List.foldl_cons, ih, btGet_btInsert]

/-- Lookup in a built route table is the last listed binding for the key. -/
theorem btGet_buildRoutes {K V : Type} [DecidableEq K] (rs : List (K × V)) (k : K) :
    btGet (buildRoutes rs) k
      = rs.foldl (fun acc kv => if k = kv.1 then some kv.2 else acc) none := by
  simpa [btGet] using btGet_foldl_btInsert rs [] k

/-- Folding the last-binding accumulator over entries none of which carry the
key leaves the accumulator unchanged. -/
theorem foldl_lastBinding_notMem {K V : Type} [DecidableEq K] (c : List (K × V)) (k : K)
    (acc : Option V) (h : k ∉ c.map Prod.fst) :
    c.foldl (fun acc kv => if k = kv.1 then some kv.2 else acc) acc = acc := by
  induction c generalizing acc with
  | nil => rfl
  | cons kv c ih =>
    simp only [List.map_cons, List.mem_cons] at h
    push_neg at h
    simp only [List.foldl_cons, if_neg h.1, ih _ h.2]

/-- Claim C1: for every dispatch table and every request whose (method, path)
key is registered in the table, the dispatcher built by `make_req_dispatcher`
selects exactly the handler registered under that key (so no other handler)
and returns that handler's response. -/
theorem dispatch_registered_route (tbl : List (RouteKey × RequestHandler))
    (d : RequestHandler) (req : Request) (h : RequestHandler)
    (hreg : btGet tbl (requestKey req) = some h) :
    dispatchChoice tbl d (requestKey req) = h ∧
      make_req_dispatcher tbl d req = h req := by
  constructor
  · simp [dispatchChoice, hreg]
  · simp [make_req_dispatcher, dispatchChoice, hreg]

/-- Witness for C1 at a concrete table and request. -/
theorem dispatch_registered_route_witness :
    btGet [(getNetworksKey, probeHandlerA)]
        (requestKey (Request.mk "GET" "/networks")) = some probeHandlerA ∧
      (dispatchChoice [(getNetworksKey, probeHandlerA)] default_handler
          (requestKey (Request.mk "GET" "/networks")) = probeHandlerA ∧
        make_req_dispatcher [(getNetworksKey, probeHandlerA)] default_handler
          (Request.mk "GET" "/networks") = probeHandlerA (Request.mk "GET" "/networks")) :=
  ⟨rfl, dispatch_registered_route _ _ _ _ rfl⟩

/-- Claim C2: for every request whose (method, path) key is not in the table
— whatever the method and path strings are — the dispatcher selects the
default handler and returns its result; the dispatch layer is a total
function and produces no error. -/
theorem dispatch_unregistered_route (tbl : List (RouteKey × RequestHandler))
    (d : RequestHandler) (req : Request)
    (hmiss : btGet tbl (requestKey req) = none) :
    dispatchChoice tbl d (requestKey req) = d ∧
      make_req_dispatcher tbl d req = d req := by
  constructor
  · simp [dispatchChoice, hmiss]
  · simp [make_req_dispatcher, dispatchChoice, hmiss]

/-- Witness for C2 at a request with an unknown verb and empty path against
the table built in `main`. -/
theorem dispatch_unregistered_route_witness :
    btGet dispatch_table (requestKey (Request.mk "BREW" "")) = none ∧
      (dispatchChoice dispatch_table default_handler
          (requestKey (Request.mk "BREW" "")) = default_handler ∧
        make_req_dispatcher dispatch_table default_handler (Request.mk "BREW" "")
          = default_handler (Request.mk "BREW" "")) :=
  ⟨rfl, dispatch_unregistered_route _ _ _ rfl⟩

/-- Claim C3: route matching is exact and case-sensitive. Against the table
built in `main` (which registers GET `/networks`), a request for
`/networks/` or `/Networks` finds no table entry and is dispatched to the
default handler, while `/networks` itself finds the registered handler. -/
theorem route_matching_exact :
    btGet dispatch_table (requestKey (Request.mk "GET" "/networks/")) = none ∧
    btGet dispatch_table (requestKey (Request.mk "GET" "/Networks")) = none ∧
    mainDispatcher (Request.mk "GET" "/networks/") = Response.new "boo" ∧
    mainDispatcher (Request.mk "GET" "/Networks") = Response.new "boo" ∧
    btGet dispatch_table (requestKey (Request.mk "GET" "/networks"))
      = some on_get_networks :=
  ⟨rfl, rfl, rfl, rfl, rfl⟩

/-- Claim C4: dispatch-table construction is last-write-wins. If the same
route key appears twice in the listed triples (with handlers `h1` and `h2`
in that order) and does not appear again afterwards, lookup in the built
table yields the later handler `h2` only. -/
theorem routes_last_write_wins (a b c : List (RouteKey × RequestHandler))
    (k : RouteKey) (h1 h2 : RequestHandler) (hc : k ∉ c.map Prod.fst) :
    btGet (buildRoutes (a ++ (k, h1) :: b ++ (k, h2) :: c)) k = some h2 := by
  rw [btGet_buildRoutes, List.foldl_append, List.foldl_cons, List.foldl_append,
    List.foldl_cons]
  simp only [if_pos rfl]
  exact foldl_lastBinding_notMem c k _ hc

/-- Witness for C4: registering `getNetworksKey` twice, first with
`probeHandlerA` and then with `on_get_networks`, makes lookup yield the
later handler. -/
theorem routes_last_write_wins_witness :
    getNetworksKey ∉ ([] : List (RouteKey × RequestHandler)).map Prod.fst ∧
      btGet (buildRoutes ([] ++ (getNetworksKey, probeHandlerA) :: [] ++
          (getNetworksKey, on_get_networks) :: []))
        getNetworksKey = some on_get_networks :=
  ⟨by simp, routes_last_write_wins [] [] [] getNetworksKey probeHandlerA on_get_networks
    (by simp)⟩

/-- Claim C5: every dispatch invokes exactly one handler — there is a unique
handler the dispatcher selects and applies, and that handler is either the
table entry for the request's key or, exclusively, the default handler. -/
theorem dispatch_exactly_one_handler (tbl : List (RouteKey × RequestHandler))
    (d : RequestHandler) (req : Request) :
    (∃! h : RequestHandler,
        dispatchChoice tbl d (requestKey req) = h ∧
          make_req_dispatcher tbl d req = h req) ∧
    Xor'
      (∃ h, btGet tbl (requestKey req) = some h ∧
        dispatchChoice tbl d (requestKey req) = h)
      (btGet tbl (requestKey req) = none ∧
        dispatchChoice tbl d (requestKey req) = d) := by
  constructor
  · exact ⟨dispatchChoice tbl d (requestKey req), ⟨rfl, rfl⟩, fun y hy => hy.1.symm⟩
  · cases hk : btGet tbl (requestKey req) with
    | none =>
        right
        refine ⟨⟨rfl, by simp [dispatchChoice, hk]⟩, ?_⟩
        rintro ⟨h, hsome, -⟩
        simp [hk] at hsome
    | some h =>
        left
        refine ⟨⟨h, rfl, by simp [dispatchChoice, hk]⟩, ?_⟩
        rintro ⟨hnone, -⟩
        simp [hk] at hnone

/-- Claim C6: every request with method GET and path `/networks` gets status
200, `Content-Type: application/json`, body exactly
`{ "greeting": "Hola amigo!" }` (braces written `\x7b`/`\x7d`), and a
`Content-Length` equal to that body's byte length (29). -/
theorem get_networks_response (req : Request)
    (hm : req.method = "GET") (hp : req.path = "/networks") :
    mainDispatcher req =
      { status := 200, contentType := some "application/json",
        contentLength := some 29,
        body := "\x7b \"greeting\": \"Hola amigo!\" \x7d" } ∧
    (mainDispatcher req).contentLength = some (mainDispatcher req).body.length := by
  cases req with
  | mk m p =>
    cases hm
    cases hp
    exact ⟨rfl, rfl⟩

/-- Witness for C6 at the request GET `/networks`. -/
theorem get_networks_response_witness :
    (Request.mk "GET" "/networks").method = "GET" ∧
    (Request.mk "GET" "/networks").path = "/networks" ∧
    (mainDispatcher (Request.mk "GET" "/networks") =
      { status := 200, contentType := some "application/json",
        contentLength := some 29,
        body := "\x7b \"greeting\": \"Hola amigo!\" \x7d" } ∧
    (mainDispatcher (Request.mk "GET" "/networks")).contentLength
      = some (mainDispatcher (Request.mk "GET" "/networks")).body.length) :=
  ⟨rfl, rfl, get_networks_response (Request.mk "GET" "/networks") rfl rfl⟩

/-- Claim C7: every request with method POST and path `/networks` gets status
200, `Content-Type: application/json`, a body that is the fixed JSON object
containing the string fields `"Id": "12345"` and `"Warnings": ""`, and a
`Content-Length` equal to the body's byte length. -/
theorem create_network_response (req : Request)
    (hm : req.method = "POST") (hp : req.path = "/networks") :
    (mainDispatcher req).status = 200 ∧
    (mainDispatcher req).contentType = some "application/json" ∧
    (mainDispatcher req).body =
      "\x7b\n            \"Id\": \"12345\",\n            \"Warnings\": \"\"\n        \x7d" ∧
    (mainDispatcher req).contentLength = some (mainDispatcher req).body.length ∧
    String.data "\"Id\": \"12345\"" <:+: (mainDispatcher req).body.data ∧
    String.data "\"Warnings\": \"\"" <:+: (mainDispatcher req).body.data := by
  cases req with
  | mk m p =>
    cases hm
    cases hp
    refine ⟨rfl, rfl, rfl, rfl, ?_, ?_⟩ <;> decide

/-- Witness for C7 at the request POST `/networks`. -/
theorem create_network_response_witness :
    (Request.mk "POST" "/networks").method = "POST" ∧
    (Request.mk "POST" "/networks").path = "/networks" ∧
    ((mainDispatcher (Request.mk "POST" "/networks")).status = 200 ∧
    (mainDispatcher (Request.mk "POST" "/networks")).contentType
      = some "application/json" ∧
    (mainDispatcher (Request.mk "POST" "/networks")).body =
      "\x7b\n            \"Id\": \"12345\",\n            \"Warnings\": \"\"\n        \x7d" ∧
    (mainDispatcher (Request.mk "POST" "/networks")).contentLength
      = some (mainDispatcher (Request.mk "POST" "/networks")).body.length ∧
    String.data "\"Id\": \"12345\""
      <:+: (mainDispatcher (Request.mk "POST" "/networks")).body.data ∧
    String.data "\"Warnings\": \"\""
      <:+: (mainDispatcher (Request.mk "POST" "/networks")).body.data) :=
  ⟨rfl, rfl, create_network_response (Request.mk "POST" "/networks") rfl rfl⟩

/-- Claim C8: every request whose (method, path) key is neither
GET `/networks` nor POST `/networks` gets the default handler's response:
status 200, body exactly `boo`, and no explicit `Content-Type` or
`Content-Length` header. -/
theorem default_route_response (req : Request)
    (h1 : requestKey req ≠ getNetworksKey) (h2 : requestKey req ≠ postNetworksKey) :
    mainDispatcher req = Response.new "boo" ∧
    (mainDispatcher req).status = 200 ∧
    (mainDispatcher req).body = "boo" ∧
    (mainDispatcher req).contentType = none ∧
    (mainDispatcher req).contentLength = none := by
  have htbl : dispatch_table
      = [(getNetworksKey, on_get_networks), (postNetworksKey, on_create_network)] := rfl
  have hmiss : btGet dispatch_table (requestKey req) = none := by
    rw [htbl]
    simp [btGet, h1, h2]
  have hmain : mainDispatcher req = Response.new "boo" := by
    simp [mainDispatcher, make_req_dispatcher, hmiss, default_handler]
  refine ⟨hmain, ?_, ?_, ?_, ?_⟩ <;> rw [hmain] <;> rfl

/-- Witness for C8 at the request DELETE `/networks`. -/
theorem default_route_response_witness :
    requestKey (Request.mk "DELETE" "/networks") ≠ getNetworksKey ∧
    requestKey (Request.mk "DELETE" "/networks") ≠ postNetworksKey ∧
    (mainDispatcher (Request.mk "DELETE" "/networks") = Response.new "boo" ∧
    (mainDispatcher (Request.mk "DELETE" "/networks")).status = 200 ∧
    (mainDispatcher (Request.mk "DELETE" "/networks")).body = "boo" ∧
    (mainDispatcher (Request.mk "DELETE" "/networks")).contentType = none ∧
    (mainDispatcher (Request.mk "DELETE" "/networks")).contentLength = none) :=
  ⟨by decide, by decide,
    default_route_response (Request.mk "DELETE" "/networks") (by decide) (by decide)⟩

/-- Claim C9: the dispatch table is immutable across dispatch invocations —
running any sequence of requests from any dispatcher state returns the state
with the same dispatch table (same key set, same handler at every key) and
the same default handler. -/
theorem dispatch_table_immutable (s : DispatcherState) (reqs : List Request) :
    (runRequests s reqs).2.dispatch_table = s.dispatch_table ∧
    (∀ k, btGet (runRequests s reqs).2.dispatch_table k = btGet s.dispatch_table k) ∧
    (runRequests s reqs).2.default_handler = s.default_handler := by
  have h : (runRequests s reqs).2 = s := by
    induction reqs generalizing s with
    | nil => rfl
    | cons r rs ih =>
      simp only [runRequests, dispatchStep]
      cases hk : btGet s.dispatch_table (requestKey r) <;> simp [hk, ih]
  rw [h]
  exact ⟨rfl, fun _ => rfl, rfl⟩

/-- Claim C10: the hand-written `Ord` on `HttpMethod` (string comparison of
the method names) is consistent with equality — `cmp a b = eq` exactly when
`a = b` — and `partial_cmp` always returns `some (cmp a b)`. -/
theorem httpMethod_ord_consistent (a b : HttpMethod) :
    (HttpMethod.cmp a b = Ordering.eq ↔ a = b) ∧
    HttpMethod.partialCmp a b = some (HttpMethod.cmp a b) := by
  refine ⟨?_, rfl⟩
  cases a with
  | mk ma =>
    cases b with
    | mk mb =>
      simp only [HttpMethod.cmp, strCmp]
      constructor
      · intro h
        by_cases hlt : ma < mb
        · simp [hlt] at h
        · by_cases heq : ma = mb
          · subst heq; rfl
          · simp [hlt, heq] at h
      · intro h
        cases h
        simp [lt_irrefl]

end HttpMinimist
